import Mathlib

/-!
Shallow embedding of `src/main.py` (a FastAPI carrier-lookup service) and
proofs about it.

Modelling conventions:
- A pandas cell is a `Value`: `na` models NaN/absent, `intv` an int64 cell,
  `flt` a float64 cell (modelled as an exact rational), `str` an object/string
  cell.
- Python `int(x)` truncates floats toward zero; `float(s)` parses a plain
  decimal literal (sign, digits, optional fraction).  The embedding renders
  Python error messages without the quote characters Python adds around the
  offending literal.
- `str(e)` on a starlette `HTTPException` renders as `"{status_code}: {detail}"`
  (starlette's `HTTPException.__str__`); on a `ValueError` it is the message.
- FastAPI validates the handler's returned dict against the `CarrierResponse`
  pydantic model after the handler returns (outside the handler's
  `try`/`except`); a validation failure surfaces as a generic
  HTTP 500 "Internal Server Error".  Pydantic v1 coerces int/float cells in
  plain `str` fields to their string form, and rejects `None` in the required
  (non-Optional) `PHONE : str` field.
-/

namespace CarrierAPI

/-- One raw pandas cell value. -/
inductive Value where
  | na : Value
  | intv : Int → Value
  | flt : Rat → Value
  | str : String → Value
deriving DecidableEq, Repr

/-- `pd.isna`: true exactly on NaN/absent cells. -/
def isna : Value → Bool
  | .na => true
  | _ => false

/-- Truncation toward zero, Python `int()` applied to a float
(`Int.div` is T-division, rounding toward zero; `Rat.den` is positive). -/
def ratTrunc (q : Rat) : Int := q.num.tdiv q.den

/-- Fold a digit list into a Nat; `none` when a non-digit occurs. -/
def natOfDigits (cs : List Char) : Option Nat :=
  cs.foldl
    (fun acc c =>
      acc.bind (fun m => if c.isDigit then some (m * 10 + (c.toNat - 48)) else none))
    (some 0)

/-- Python `float(s)` on a plain decimal string: optional sign, digits,
optional fractional part.  `none` when the string is not numeric. -/
def parseFloat (s : String) : Option Rat :=
  let cs := s.data
  let signed : Bool × List Char :=
    match cs with
    | c :: rest => if c = '-' then (true, rest) else if c = '+' then (false, rest) else (false, cs)
    | [] => (false, [])
  let neg := signed.1
  let body := signed.2
  let ip := body.takeWhile (fun c => c ≠ '.')
  match body.dropWhile (fun c => c ≠ '.') with
  | [] =>
    match natOfDigits ip with
    | some m => if ip.isEmpty then none else some (if neg then -(m : Rat) else (m : Rat))
    | none => none
  | _ :: fp =>
    if ip.isEmpty && fp.isEmpty then none
    else
      match natOfDigits ip, natOfDigits fp with
      | some i, some f =>
        let q : Rat := (i : Rat) + (f : Rat) / ((10 : Rat) ^ fp.length)
        some (if neg then -q else q)
      | _, _ => none

/-- Python `int(s)` on a string: optional sign then digits only. -/
def parseIntLit (s : String) : Option Int :=
  let cs := s.data
  let signed : Bool × List Char :=
    match cs with
    | c :: rest => if c = '-' then (true, rest) else if c = '+' then (false, rest) else (false, cs)
    | [] => (false, [])
  match natOfDigits signed.2 with
  | some m => if signed.2.isEmpty then none else some (if signed.1 then -(m : Int) else (m : Int))
  | none => none

/-- Python `int(value)` on a raw cell: NaN raises, floats truncate toward
zero, strings must be integer literals. -/
def toInt : Value → Except String Int
  | .na => .error "cannot convert float NaN to integer"
  | .intv n => .ok n
  | .flt q => .ok (ratTrunc q)
  | .str s =>
    match parseIntLit s with
    | some n => .ok n
    | none => .error ("invalid literal for int() with base 10: " ++ s)

/-- Python `int(float(value))` on a raw cell: NaN raises at the `int` step,
non-numeric strings raise at the `float` step. -/
def int_of_float : Value → Except String Int
  | .na => .error "cannot convert float NaN to integer"
  | .intv n => .ok n
  | .flt q => .ok (ratTrunc q)
  | .str s =>
    match parseFloat s with
    | some q => .ok (ratTrunc q)
    | none => .error ("could not convert string to float: " ++ s)

/-- `clean_phone_number` (src/main.py lines 27-32): NaN maps to `None`,
otherwise `str(int(float(value)))`; a present non-numeric value raises. -/
def clean_phone_number (value : Value) : Except String (Option String) :=
  if isna value then .ok none
  else
    match int_of_float value with
    | .ok n => .ok (some (toString n))
    | .error m => .error m

/-- Python `str(value)` on a raw cell (float64 cells with integral value
render with a trailing `.0`; non-integral floats are rendered as rationals
in this embedding — no claim exercises them). -/
def pyStr : Value → String
  | .na => "nan"
  | .intv n => toString n
  | .flt q => if q.den = 1 then toString q.num ++ ".0" else toString q
  | .str s => s

/-- Pandas elementwise `== dot_number` on a cell: numeric equality for
numeric cells, `False` for NaN and for string cells compared to an int. -/
def valueEqInt (v : Value) (n : Int) : Bool :=
  match v with
  | .intv m => m = n
  | .flt q => q = (n : Rat)
  | _ => false

/-- One row of the loaded carrier table (the columns the handler touches). -/
structure Row where
  DOT_NUMBER : Value
  MC_NUMBER : Value
  COMPANY_NAME : Value
  PHY_STREET : Value
  PHY_CITY : Value
  PHY_STATE : Value
  PHY_ZIP : Value
  PHONE : Value
  CELL_PHONE : Value
  TRUCK_UNITS : Value
  POWER_UNITS : Value
deriving DecidableEq, Repr

/-- The dict the handler builds from the first matching row
(src/main.py lines 93-103): converted keys plus raw pass-through cells. -/
structure CarrierDict where
  DOT_NUMBER : Int
  MC_NUMBER : Option String
  COMPANY_NAME : Value
  PHY_STREET : Value
  PHY_CITY : Value
  PHY_STATE : Value
  PHY_ZIP : Value
  PHONE : Option String
  CELL_PHONE : Option String
  TRUCK_UNITS : Int
  POWER_UNITS : Int
deriving DecidableEq, Repr

/-- The `CarrierResponse` pydantic model (src/main.py lines 14-25). -/
structure CarrierResponse where
  DOT_NUMBER : Int
  MC_NUMBER : Option String
  COMPANY_NAME : String
  PHY_STREET : String
  PHY_CITY : String
  PHY_STATE : String
  PHY_ZIP : String
  PHONE : String
  CELL_PHONE : Option String
  TRUCK_UNITS : Int
  POWER_UNITS : Int
deriving DecidableEq, Repr

/-- A Python exception live inside the handler's `try` block. -/
inductive Exc where
  | httpException (status : Nat) (detail : String)
  | valueError (msg : String)
deriving DecidableEq, Repr

/-- Python `str(e)`: starlette `HTTPException.__str__` is
`"{status_code}: {detail}"`; `ValueError` renders its message. -/
def strOfExc : Exc → String
  | .httpException status detail => toString status ++ ": " ++ detail
  | .valueError msg => msg

/-- The conversion block (src/main.py lines 96-101) applied to the first
matching row, in source statement order; the first failing conversion
raises a `ValueError`. -/
def normalize_row (r : Row) : Except Exc CarrierDict :=
  match toInt r.DOT_NUMBER with
  | .error m => .error (.valueError m)
  | .ok dot =>
    match toInt r.TRUCK_UNITS with
    | .error m => .error (.valueError m)
    | .ok truck =>
      match toInt r.POWER_UNITS with
      | .error m => .error (.valueError m)
      | .ok power =>
        match clean_phone_number r.PHONE with
        | .error m => .error (.valueError m)
        | .ok phone =>
          match clean_phone_number r.CELL_PHONE with
          | .error m => .error (.valueError m)
          | .ok cell =>
            .ok { DOT_NUMBER := dot
                  MC_NUMBER := if isna r.MC_NUMBER then none else some (pyStr r.MC_NUMBER)
                  COMPANY_NAME := r.COMPANY_NAME
                  PHY_STREET := r.PHY_STREET
                  PHY_CITY := r.PHY_CITY
                  PHY_STATE := r.PHY_STATE
                  PHY_ZIP := r.PHY_ZIP
                  PHONE := phone
                  CELL_PHONE := cell
                  TRUCK_UNITS := truck
                  POWER_UNITS := power }

/-- The body of the handler's `try` block (src/main.py lines 82-103):
it either returns the built dict or raises. -/
def handler_try (df : Option (List Row)) (dot_number : Int) : Except Exc CarrierDict :=
  match df with
  | none => .error (.httpException 500 "Database not initialized")
  | some rows =>
    match rows.filter (fun r => valueEqInt r.DOT_NUMBER dot_number) with
    | [] =>
      .error (.httpException 404
        ("Carrier with DOT number " ++ toString dot_number ++ " not found"))
    | r :: _ => normalize_row r

/-- Pydantic v1 coercion of a raw cell in a plain required `str` field
(floats and ints are coerced via `str`, NaN to the string "nan"). -/
def strCoerce (v : Value) : String := pyStr v

/-- FastAPI `response_model=CarrierResponse` validation of the returned dict:
the required non-Optional `PHONE : str` field rejects `None`. -/
def validate_response (d : CarrierDict) : Except String CarrierResponse :=
  match d.PHONE with
  | none => .error "none is not an allowed value for field PHONE"
  | some p =>
    .ok { DOT_NUMBER := d.DOT_NUMBER
          MC_NUMBER := d.MC_NUMBER
          COMPANY_NAME := strCoerce d.COMPANY_NAME
          PHY_STREET := strCoerce d.PHY_STREET
          PHY_CITY := strCoerce d.PHY_CITY
          PHY_STATE := strCoerce d.PHY_STATE
          PHY_ZIP := strCoerce d.PHY_ZIP
          PHONE := p
          CELL_PHONE := d.CELL_PHONE
          TRUCK_UNITS := d.TRUCK_UNITS
          POWER_UNITS := d.POWER_UNITS }

/-- The observable outcome of a `GET /carrier` request. -/
inductive Outcome where
  | found (resp : CarrierResponse)
  | httpError (status : Nat) (detail : String)
deriving DecidableEq, Repr

/-- Whether the outcome is a well-formed 200 response. -/
def Outcome.isFound : Outcome → Bool
  | .found _ => true
  | .httpError _ _ => false

/-- `get_carrier_by_dot` (src/main.py lines 68-107) as observed over HTTP:
any exception escaping the `try` body — the explicit 404/500
`HTTPException`s included, since `except Exception` catches them — is
re-raised as HTTP 500 with `detail=str(e)`; a response-model validation
failure after the handler returns is a generic 500. -/
def get_carrier_by_dot (df : Option (List Row)) (dot_number : Int) : Outcome :=
  match handler_try df dot_number with
  | .error e => .httpError 500 (strOfExc e)
  | .ok d =>
    match validate_response d with
    | .error _ => .httpError 500 "Internal Server Error"
    | .ok resp => .found resp

/-- The startup loading loop (src/main.py lines 41-66): each source file
either parses to a row list or fails; failed files are skipped, the
successful ones are concatenated in order; if none loaded, `df = None`. -/
def loadTable (files : List (Option (List Row))) : Option (List Row) :=
  let dataframes := files.filterMap id
  if dataframes.isEmpty then none else some dataframes.flatten

/-- The `/health` response (src/main.py lines 114-116). -/
structure HealthResponse where
  status : String
  data_loaded : Bool
deriving DecidableEq, Repr

/-- `health_check` (src/main.py lines 114-116). -/
def health_check (df : Option (List Row)) : HealthResponse :=
  { status := "healthy", data_loaded := df.isSome }

/-- The `/` response (src/main.py lines 109-111). -/
structure RootResponse where
  message : String
deriving DecidableEq, Repr

/-- `root` (src/main.py lines 109-111). -/
def root : RootResponse :=
  { message := "Use /carrier?dot_number=XXXX to search for carrier information." }

/-- The process state the handlers share: the module-level `df`. -/
structure ServerState where
  df : Option (List Row)
deriving DecidableEq

/-- `get_carrier_by_dot` as a state-passing operation: the handler reads
the module-level `df` and never assigns it. -/
def get_carrier_op (st : ServerState) (n : Int) : Outcome × ServerState :=
  (get_carrier_by_dot st.df n, st)

/-- `health_check` as a state-passing operation. -/
def health_op (st : ServerState) : HealthResponse × ServerState :=
  (health_check st.df, st)

/-- `root` as a state-passing operation. -/
def root_op (st : ServerState) : RootResponse × ServerState :=
  (root, st)

end CarrierAPI


namespace CarrierAPI

/-- A well-formed concrete table row (DOT 123) used by concrete instances. -/
def sampleRow : Row :=
  { DOT_NUMBER := .intv 123
    MC_NUMBER := .str "MC-55"
    COMPANY_NAME := .str "ACME TRUCKING"
    PHY_STREET := .str "1 MAIN ST"
    PHY_CITY := .str "SPRINGFIELD"
    PHY_STATE := .str "IL"
    PHY_ZIP := .str "62704"
    PHONE := .flt 5551234567
    CELL_PHONE := .na
    TRUCK_UNITS := .intv 2
    POWER_UNITS := .intv 3 }

/-- `sampleRow` with a NaN required-numeric cell (TRUCK_UNITS). -/
def rowNaTruck : Row := { sampleRow with TRUCK_UNITS := .na }

/-- `sampleRow` with a NaN PHONE cell. -/
def rowNaPhone : Row := { sampleRow with PHONE := .na }

/-- `sampleRow` with a present but non-numeric PHONE cell. -/
def rowBadPhone : Row := { sampleRow with PHONE := .str "not-a-number" }

/-- A row that matched the equality filter has a numeric DOT cell, so
`int()` on it succeeds. -/
theorem toInt_isOk_of_valueEqInt (v : Value) (n : Int) (h : valueEqInt v n = true) :
    ∃ m, toInt v = Except.ok m := by
  cases v with
  | na => simp [valueEqInt] at h
  | intv m => exact ⟨m, rfl⟩
  | flt q => exact ⟨ratTrunc q, rfl⟩
  | str s => simp [valueEqInt] at h

/-- The head of the filtered table satisfies the filter predicate. -/
theorem head_filter_matches (rows rest : List Row) (r : Row) (n : Int)
    (h : rows.filter (fun row => valueEqInt row.DOT_NUMBER n) = r :: rest) :
    valueEqInt r.DOT_NUMBER n = true := by
  have hmem : r ∈ rows.filter (fun row => valueEqInt row.DOT_NUMBER n) := by
    rw [h]; exact List.mem_cons_self r rest
  exact (List.mem_filter.mp hmem).2

end CarrierAPI

namespace CarrierAPI

/-- Claim C1 (code bug): for a DOT number absent from the loaded table the
handler constructs a 404 HTTPException, but the blanket `except Exception`
(src/main.py line 105) catches it and re-raises it as HTTP 500 with
`detail=str(e)`: the request observably returns 500 and never 404. -/
theorem c1_absent_dot_returns_500_not_404 :
    get_carrier_by_dot (some [sampleRow]) 999 =
      .httpError 500 "404: Carrier with DOT number 999 not found" ∧
    ∀ d : String, get_carrier_by_dot (some [sampleRow]) 999 ≠ .httpError 404 d := by
  refine ⟨rfl, fun d h => ?_⟩
  have h2 : Outcome.httpError 500 "404: Carrier with DOT number 999 not found" =
      Outcome.httpError 404 d := h
  injection h2 with h1 h3
  exact absurd h1 (by decide)

/-- Claim C2 (amended): when the first matching row normalizes cleanly —
its DOT_NUMBER, TRUCK_UNITS and POWER_UNITS convert to integers, PHONE
normalizes to a present digit string and CELL_PHONE normalizes — the call
returns exactly that first row in table order, normalized: integer fields
coerced, phones as digit strings, MC_NUMBER a string or absent. -/
theorem c2_first_match_normalized (rows rest : List Row) (r : Row) (n : Int)
    (dot truck power : Int) (ph : String) (cell : Option String)
    (hfilter : rows.filter (fun row => valueEqInt row.DOT_NUMBER n) = r :: rest)
    (hdot : toInt r.DOT_NUMBER = .ok dot)
    (htruck : toInt r.TRUCK_UNITS = .ok truck)
    (hpower : toInt r.POWER_UNITS = .ok power)
    (hphone : clean_phone_number r.PHONE = .ok (some ph))
    (hcell : clean_phone_number r.CELL_PHONE = .ok cell) :
    get_carrier_by_dot (some rows) n =
      .found { DOT_NUMBER := dot
               MC_NUMBER := if isna r.MC_NUMBER then none else some (pyStr r.MC_NUMBER)
               COMPANY_NAME := strCoerce r.COMPANY_NAME
               PHY_STREET := strCoerce r.PHY_STREET
               PHY_CITY := strCoerce r.PHY_CITY
               PHY_STATE := strCoerce r.PHY_STATE
               PHY_ZIP := strCoerce r.PHY_ZIP
               PHONE := ph
               CELL_PHONE := cell
               TRUCK_UNITS := truck
               POWER_UNITS := power } := by
  simp [get_carrier_by_dot, handler_try, hfilter, normalize_row, hdot, htruck, hpower,
        hphone, hcell, validate_response]

/-- Claim C2 witness: a concrete clean row looked up by its DOT number. -/
theorem c2_first_match_normalized_witness :
    get_carrier_by_dot (some [sampleRow]) 123 =
      .found { DOT_NUMBER := 123
               MC_NUMBER := some "MC-55"
               COMPANY_NAME := "ACME TRUCKING"
               PHY_STREET := "1 MAIN ST"
               PHY_CITY := "SPRINGFIELD"
               PHY_STATE := "IL"
               PHY_ZIP := "62704"
               PHONE := "5551234567"
               CELL_PHONE := none
               TRUCK_UNITS := 2
               POWER_UNITS := 3 } := by
  exact c2_first_match_normalized [sampleRow] [] sampleRow 123 123 2 3 "5551234567" none
    rfl rfl rfl rfl rfl rfl

/-- Claim C2 counterexample: DOT 123 occurs in the table, but its row has a
NaN PHONE cell; the call returns a generic HTTP 500 (response-model
validation rejects `PHONE = None`), not the normalized record with an
absent phone that the claim describes. -/
theorem c2_counterexample_nan_phone :
    get_carrier_by_dot (some [rowNaPhone]) 123 = .httpError 500 "Internal Server Error" ∧
    (get_carrier_by_dot (some [rowNaPhone]) 123).isFound = false := ⟨rfl, rfl⟩

/-- Claim C3 (amended): readiness degrades only when every configured
source file fails to load; when at least one loads, the service keeps the
partial concatenated table and reports `data_loaded = true`. -/
theorem c3_load_policy (files : List (Option (List Row))) :
    (files.filterMap id = [] →
      loadTable files = none ∧
      (health_check (loadTable files)).data_loaded = false ∧
      ∀ n : Int, get_carrier_by_dot (loadTable files) n =
        .httpError 500 "500: Database not initialized") ∧
    (files.filterMap id ≠ [] →
      loadTable files = some (files.filterMap id).flatten ∧
      (health_check (loadTable files)).data_loaded = true) := by
  constructor
  · intro h
    have hl : loadTable files = none := by simp [loadTable, h]
    exact ⟨hl, by simp [health_check, hl], fun n => by rw [hl]; rfl⟩
  · intro h
    have hl : loadTable files = some (files.filterMap id).flatten := by
      simp [loadTable, List.isEmpty_iff, h]
    exact ⟨hl, by simp [health_check, hl]⟩

/-- Claim C3 witness: one failed source and one loaded source. -/
theorem c3_load_policy_witness :
    ([none, some [sampleRow]] : List (Option (List Row))).filterMap id ≠ [] ∧
    loadTable [none, some [sampleRow]] = some [sampleRow] ∧
    (health_check (loadTable [none, some [sampleRow]])).data_loaded = true :=
  ⟨by decide,
   ((c3_load_policy [none, some [sampleRow]]).2 (by decide)).1,
   ((c3_load_policy [none, some [sampleRow]]).2 (by decide)).2⟩

/-- Claim C3 counterexample: two of three source files fail to load, yet
the service is not degraded: `data_loaded` is true and the lookup serves
the partial table. -/
theorem c3_counterexample_partial_failure :
    loadTable [none, some [sampleRow], none] = some [sampleRow] ∧
    (health_check (loadTable [none, some [sampleRow], none])).data_loaded = true ∧
    (get_carrier_by_dot (loadTable [none, some [sampleRow], none]) 123).isFound = true :=
  ⟨rfl, rfl, rfl⟩

/-- Claim C4: `clean_phone_number` maps NaN to the absent marker, renders
the numeric value 5551234567.0 as the plain digit string "5551234567", and
raises on a present non-numeric value. -/
theorem c4_clean_phone_number_spec :
    clean_phone_number Value.na = .ok none ∧
    clean_phone_number (Value.flt 5551234567) = .ok (some "5551234567") ∧
    clean_phone_number (Value.str "not-a-number") =
      .error "could not convert string to float: not-a-number" := ⟨rfl, rfl, rfl⟩

/-- Claim C5: concatenating two loaded sources of N1 and N2 rows yields a
table of exactly N1+N2 rows, source-1 rows first, each source's internal
order preserved. -/
theorem c5_concat_two_sources (t1 t2 : List Row) :
    loadTable [some t1, some t2] = some (t1 ++ t2) ∧
    (t1 ++ t2).length = t1.length + t2.length ∧
    (t1 ++ t2).take t1.length = t1 ∧
    (t1 ++ t2).drop t1.length = t2 := by
  refine ⟨by simp [loadTable], by simp, ?_, ?_⟩
  · rw [List.take_left]
  · rw [List.drop_left]

/-- Claim C6: when no source loaded (`df = None`), the health query reports
`data_loaded = false` and every lookup returns an HTTP 500
service-unavailable outcome (detail is the str of the original
"Database not initialized" exception) instead of crashing. -/
theorem c6_table_unavailable :
    (health_check none).data_loaded = false ∧
    ∀ n : Int, get_carrier_by_dot none n =
      .httpError 500 "500: Database not initialized" :=
  ⟨rfl, fun _ => rfl⟩

/-- Claim C7: a matching row whose TRUCK_UNITS (or, with TRUCK_UNITS
convertible, POWER_UNITS) cell is NaN makes `int()` raise, surfacing as an
HTTP 500 server error; no record (in particular no zero-defaulted one) is
returned. -/
theorem c7_nan_units_server_error (rows rest : List Row) (r : Row) (n : Int)
    (hfilter : rows.filter (fun row => valueEqInt row.DOT_NUMBER n) = r :: rest)
    (hna : r.TRUCK_UNITS = Value.na ∨
      ((∃ t, toInt r.TRUCK_UNITS = Except.ok t) ∧ r.POWER_UNITS = Value.na)) :
    get_carrier_by_dot (some rows) n =
      .httpError 500 "cannot convert float NaN to integer" ∧
    (get_carrier_by_dot (some rows) n).isFound = false := by
  obtain ⟨dot, hdot⟩ := toInt_isOk_of_valueEqInt _ n (head_filter_matches rows rest r n hfilter)
  have hmain : get_carrier_by_dot (some rows) n =
      .httpError 500 "cannot convert float NaN to integer" := by
    rcases hna with hT | ⟨⟨t, ht⟩, hP⟩
    · simp only [get_carrier_by_dot, handler_try, hfilter, normalize_row, hdot, hT]
      rfl
    · simp only [get_carrier_by_dot, handler_try, hfilter, normalize_row, hdot, ht, hP]
      rfl
  exact ⟨hmain, by rw [hmain]; rfl⟩

/-- Claim C7 witness: a concrete row with NaN TRUCK_UNITS. -/
theorem c7_nan_units_server_error_witness :
    get_carrier_by_dot (some [rowNaTruck]) 123 =
      .httpError 500 "cannot convert float NaN to integer" ∧
    (get_carrier_by_dot (some [rowNaTruck]) 123).isFound = false :=
  c7_nan_units_server_error [rowNaTruck] [] rowNaTruck 123 rfl (Or.inl rfl)

/-- Claim C8: no handler mutates the loaded table, and lookup is
deterministic and idempotent: a repeated call against the state left by the
first call returns the same outcome. -/
theorem c8_operations_pure_and_idempotent (st : ServerState) (n : Int) :
    (get_carrier_op st n).2 = st ∧
    (health_op st).2 = st ∧
    (root_op st).2 = st ∧
    (get_carrier_op ((get_carrier_op st n).2) n).1 = (get_carrier_op st n).1 :=
  ⟨rfl, rfl, rfl, rfl⟩

/-- Claim C9 (amended): an internal normalization failure is surfaced as an
HTTP 500 server error, but the detail the caller sees is `str(e)` — the
internal ValueError message itself — not a generic message. -/
theorem c9_internal_failure_exposes_message (rows rest : List Row) (r : Row)
    (n : Int) (m : String)
    (hfilter : rows.filter (fun row => valueEqInt row.DOT_NUMBER n) = r :: rest)
    (hnorm : normalize_row r = .error (Exc.valueError m)) :
    get_carrier_by_dot (some rows) n = .httpError 500 m := by
  simp [get_carrier_by_dot, handler_try, hfilter, hnorm, strOfExc]

/-- Claim C9 witness: the bad-phone row surfaces its ValueError message. -/
theorem c9_internal_failure_exposes_message_witness :
    get_carrier_by_dot (some [rowBadPhone]) 123 =
      .httpError 500 "could not convert string to float: not-a-number" :=
  c9_internal_failure_exposes_message [rowBadPhone] [] rowBadPhone 123
    "could not convert string to float: not-a-number" rfl rfl

/-- Claim C9 counterexample: a failed phone normalization answers HTTP 500
whose detail is exactly the internal exception message (`detail=str(e)`),
contradicting "not exposed to the caller beyond a generic message". -/
theorem c9_counterexample_detail_exposes_exception :
    get_carrier_by_dot (some [rowBadPhone]) 123 =
      .httpError 500 "could not convert string to float: not-a-number" ∧
    get_carrier_by_dot (some [rowBadPhone]) 123 ≠
      .httpError 500 "Internal Server Error" := ⟨rfl, by decide⟩

/-- Claim C10: a matching row with a NaN PHONE cell cannot produce a
well-formed response: `clean_phone_number` yields the absent marker while
the response model requires PHONE, so the call surfaces as a generic
HTTP 500 rather than a found record. -/
theorem c10_nan_phone_not_found_record (rows rest : List Row) (r : Row) (n : Int)
    (truck power : Int)
    (hfilter : rows.filter (fun row => valueEqInt row.DOT_NUMBER n) = r :: rest)
    (htruck : toInt r.TRUCK_UNITS = .ok truck)
    (hpower : toInt r.POWER_UNITS = .ok power)
    (hphone : r.PHONE = Value.na)
    (hcell : ∃ c, clean_phone_number r.CELL_PHONE = .ok c) :
    get_carrier_by_dot (some rows) n = .httpError 500 "Internal Server Error" ∧
    (get_carrier_by_dot (some rows) n).isFound = false := by
  obtain ⟨dot, hdot⟩ := toInt_isOk_of_valueEqInt _ n (head_filter_matches rows rest r n hfilter)
  obtain ⟨c, hc⟩ := hcell
  have hmain : get_carrier_by_dot (some rows) n =
      .httpError 500 "Internal Server Error" := by
    simp only [get_carrier_by_dot, handler_try, hfilter, normalize_row, hdot, htruck,
      hpower, hphone, hc]
    rfl
  exact ⟨hmain, by rw [hmain]; rfl⟩

/-- Claim C10 witness: the concrete NaN-PHONE row. -/
theorem c10_nan_phone_not_found_record_witness :
    get_carrier_by_dot (some [rowNaPhone]) 123 = .httpError 500 "Internal Server Error" ∧
    (get_carrier_by_dot (some [rowNaPhone]) 123).isFound = false :=
  c10_nan_phone_not_found_record [rowNaPhone] [] rowNaPhone 123 2 3
    rfl rfl rfl rfl ⟨none, rfl⟩

end CarrierAPI
